import Mathlib

/- Verification of the pyShelly block and firmware modules.
   The definitions below are a shallow embedding of src/pyShelly/block.py and
   src/pyShelly/firmware.py.  Machine time is modelled as integer seconds,
   Python dictionaries as insertion-ordered association lists, and the raw
   JSON status structure as an inductive tree.  Python truthiness is modelled
   explicitly where the source branches on it. -/

/-- A typed info value, spec section 3: info value sets map names to typed
values.  Python value truthiness is captured by Value.truthy. -/
inductive Value where
  | vNone : Value
  | vBool : Bool → Value
  | vInt : Int → Value
  | vStr : String → Value
deriving DecidableEq

/-- Python truthiness of a value: None, False, 0 and the empty string are
falsy, everything else is truthy. -/
def Value.truthy : Value → Bool
  | .vNone => false
  | .vBool b => b
  | .vInt n => decide (n ≠ 0)
  | .vStr s => decide (s ≠ "")

/-- Truthiness of dict.get style lookups: a missing key yields None. -/
def truthyO : Option Value → Bool
  | none => false
  | some v => v.truthy

/-- Raw keyed status structure delivered by the status fetch collaborator. -/
inductive Json where
  | jNull : Json
  | jBool : Bool → Json
  | jInt : Int → Json
  | jStr : String → Json
  | jObj : List (String × Json) → Json
  | jArr : List Json → Json

/-- Association-list lookup, the model of a Python dict read. -/
def lookupA {α : Type} : List (String × α) → String → Option α
  | [], _ => none
  | (k, v) :: rest, key => if k = key then some v else lookupA rest key

/-- Association-list write, the model of a Python dict assignment: replace the
value of an existing key in place, otherwise append the new binding. -/
def updateA {α : Type} : List (String × α) → String → α → List (String × α)
  | [], key, v => [(key, v)]
  | (k, w) :: rest, key, v =>
      if k = key then (key, v) :: rest else (k, w) :: updateA rest key v

/-- The Python test status == dict() in update_status_information. -/
def is_empty_obj : Json → Bool
  | .jObj [] => true
  | _ => false

/-- Python truthiness of a raw structure, used for if self.settings. -/
def Json.truthy : Json → Bool
  | .jNull => false
  | .jBool b => b
  | .jInt n => decide (n ≠ 0)
  | .jStr s => decide (s ≠ "")
  | .jObj fields => !fields.isEmpty
  | .jArr elems => !elems.isEmpty

/-- Truthiness of an optional structure, None being falsy. -/
def truthyJ : Option Json → Bool
  | none => false
  | some j => j.truthy

/-- Collapse a resolved structure node to a typed info value.  Spec section 3
types info values; container nodes do not occur as extracted leaves in the
behaviour verified here. -/
def Json.toValue : Json → Value
  | .jNull => .vNone
  | .jBool b => .vBool b
  | .jInt n => .vInt n
  | .jStr s => .vStr s
  | .jObj _ => .vNone
  | .jArr _ => .vNone

def STR_POLL : String := "poll"
def STR_ROLLER : String := "roller"
def STR_COLOR : String := "color"
def STR_MODE : String := "mode"
def STR_CONNECTED : String := "connected"
def STR_DISCONNECTED : String := "disconnected"
def STR_DISABLED : String := "disabled"
def STR_VER : String := "ver"
def STR_SLASH : String := "/"
def OTA_GENERIC : String := "/ota?update=1"
def OTA_URL : String := "/ota?url="

/- Path segment constants for the block-level rule paths. -/
def K_UPDATE : String := "update"
def K_OLD_VERSION : String := "old_version"
def K_NEW_VERSION : String := "new_version"
def K_CLOUD : String := "cloud"
def K_ENABLED : String := "enabled"
def K_CONNECTED : String := "connected"
def K_TEMPERATURE : String := "temperature"

/- Info value name constants from const.py.  const.py is not under src; the
exact string values are immaterial to every claim, only their distinctness is
used.  The names mirror the imports at the top of block.py. -/
def INFO_VALUE_DEVICE_TEMP : String := "device_temp"
def INFO_VALUE_CLOUD_STATUS : String := "cloud_status"
def INFO_VALUE_CLOUD_ENABLED : String := "cloud_enabled"
def INFO_VALUE_CLOUD_CONNECTED : String := "cloud_connected"
def INFO_VALUE_FW_VERSION : String := "fw_version"
def INFO_VALUE_LATEST_FIRMWARE_VERSION : String := "latest_fw_version"
def INFO_VALUE_LATEST_BETA_FW_VERSION : String := "latest_beta_fw_version"
def INFO_VALUE_PAYLOAD : String := "payload"
def INFO_VALUE_BATTERY : String := "battery"
def INFO_VALUE_ILLUMINANCE : String := "illuminance"
def INFO_VALUE_TILT : String := "tilt"
def INFO_VALUE_VIBRATION : String := "vibration"
def INFO_VALUE_TEMP : String := "temperature"
def INFO_VALUE_PPM : String := "ppm"
def INFO_VALUE_SENSOR : String := "sensor"
def INFO_VALUE_TOTAL_WORK_TIME : String := "total_work_time"

/-- An extraction rule for one info value: the ATTR_POS, ATTR_PATH, ATTR_FMT
and ATTR_AUTO_SET keys of a cfg dict in block.py.  A slash-delimited ATTR_PATH
string is represented by its list of segments.  ATTR_AUTO_SET carries the
target value and the delay in seconds. -/
structure IVCfg where
  pos : Option Nat := none
  path : Option (List String) := none
  fmt : Option String := none
  auto_set : Option (Value × Int) := none
deriving DecidableEq

/-- The kinds of sub-device units block.py instantiates.  The concrete
sub-device classes live outside src and are modelled as opaque units. -/
inductive DevKind where
  | bulb | relay | switch | powerMeter | extTemp | extHumidity | roller
  | rgbw2w | rgbw2c | rgbww | dimmer | sensorTemperature | sensorHumidity
  | flood | doorWindow | duo | vintage | gas
deriving DecidableEq

/-- A sub-device unit as far as topology is concerned: its kind, its logical
channel index and the lazy_load flag passed to _add_device.  The field
locator constructor arguments of the concrete classes are outside src and do
not affect the topology. -/
structure SubDev where
  kind : DevKind
  channel : Nat
  lazy_load : Bool
deriving DecidableEq

/-- The aggregate state of one Block instance: the attributes assigned in
Block.__init__ that the verified methods read or write.  Defaults are the
__init__ initial values. -/
structure BlockState where
  btype : String := ""
  info_values : List (String × Value) := []
  info_values_updated : List (String × Int) := []
  info_value_cfg : Option (List (String × IVCfg)) := none
  exclude_info_values : List String := []
  payload : Option Value := none
  protocols : List String := []
  devices : List SubDev := []
  settings : Option Json := none
  last_updated : Option Int := none
  last_update_status_info : Option Int := none
  unavailable_after_sec : Option Int := none

/-- A firmware catalog entry: each entry of the remote catalog carries a
stable version and optionally a beta version and a beta download URL, spec
section 6.  A key access on a missing optional key, which would raise in
Python, is modelled as none. -/
structure FwCfg where
  version : String := ""
  beta_ver : Option String := none
  beta_url : Option String := none
deriving DecidableEq

/-- Outcome of the one-time remote catalog fetch: either some transport or
parse failure, or the decoded data mapping. -/
inductive CatalogFetch where
  | failure : String → CatalogFetch
  | success : List (String × FwCfg) → CatalogFetch

/-- Modelled from the spec: REGEX_VER lives in const.py, which is not under
src.  Per spec sections 4.2 and 6 the transform finds a version-like substring
of the raw firmware string and returns its numeric component, the token after
the slash in the vendor format, and returns the input unchanged when no such
token is found. -/
def FirmwareManager.format (value : String) : String :=
  match value.splitOn STR_SLASH with
  | _ :: v :: _ => v
  | _ => value

/-- FirmwareManager._http_get: any exception while fetching or decoding the
catalog is caught, logged and turned into the empty mapping, so no exception
reaches the caller. -/
def FirmwareManager.http_get : CatalogFetch → List (String × FwCfg)
  | .failure _ => []
  | .success d => d

/-- The lazily populated catalog cache: the _firmwares field and the
_downloaded flag of the FirmwareManager singleton. -/
structure FirmwareManagerState where
  firmwares : Option (List (String × FwCfg)) := none
  downloaded : Bool := false

/-- FirmwareManager._list_firmwares: once downloaded the cached mapping is
returned; on first access the fetch outcome populates the cache and sets the
downloaded flag. -/
def FirmwareManager.list_firmwares (st : FirmwareManagerState)
    (fetch : CatalogFetch) : FirmwareManagerState × List (String × FwCfg) :=
  if st.downloaded then
    (st, st.firmwares.getD [])
  else
    match st.firmwares with
    | some f => ({ st with downloaded := true }, f)
    | none =>
        let f := FirmwareManager.http_get fetch
        ({ firmwares := some f, downloaded := true }, f)

/-- FirmwareManager.version over the cached mapping: the beta version is
preferred only when beta is requested and a beta_ver entry exists, otherwise
the stable version is formatted; an unknown model yields no version. -/
def FirmwareManager.version (fws : List (String × FwCfg)) (shelly_type : String)
    (beta : Bool) : Option String :=
  match lookupA fws shelly_type with
  | none => none
  | some cfg =>
      if beta && cfg.beta_ver.isSome then
        cfg.beta_ver.map FirmwareManager.format
      else
        some (FirmwareManager.format cfg.version)

/-- FirmwareManager.url over the cached mapping: a download URL exists only
when beta is requested and a beta_ver entry exists, otherwise None. -/
def FirmwareManager.url (fws : List (String × FwCfg)) (shelly_type : String)
    (beta : Bool) : Option String :=
  match lookupA fws shelly_type with
  | none => none
  | some cfg =>
      if beta && cfg.beta_ver.isSome then cfg.beta_url else none

/-- Resolve a path locator against the raw status structure: traverse nested
keys, numeric segments indexing array nodes; a missing key or an out-of-range
index resolves to nothing. -/
def resolve_path : List String → Json → Option Json
  | [], j => some j
  | s :: rest, j =>
      match j with
      | .jObj fields =>
          match lookupA fields s with
          | some child => resolve_path rest child
          | none => none
      | .jArr elems =>
          match s.toNat? with
          | some i =>
              match elems.get? i with
              | some child => resolve_path rest child
              | none => none
          | none => none
      | _ => none

/-- Apply the ATTR_FMT transform of a rule, spec section 4.2: the version
format extracts the numeric token of a version string, any other value passes
through unchanged. -/
def apply_fmt : Option String → Value → Value
  | none, v => v
  | some f, v =>
      if f = STR_VER then
        match v with
        | .vStr s => .vStr (FirmwareManager.format s)
        | other => other
      else v

/-- Modelled from the spec: the extraction helper _update_info_value lives in
base.py, which is not under src.  Per spec section 4.2 a path locator is
resolved against the keyed poll structure, a missing path skips the rule with
no value change, a resolved value is written under the rule name stamped with
now after the format transform.  Positional locators index the push payload
representation, not the keyed poll structure, so a rule with only a positional
locator is skipped here. -/
def update_info_value (now : Int) (status : Json) (name : String) (cfg : IVCfg)
    (acc : List (String × Value) × List (String × Int)) :
    List (String × Value) × List (String × Int) :=
  match cfg.path with
  | some segs =>
      match resolve_path segs status with
      | some j => (updateA acc.1 name (apply_fmt cfg.fmt j.toValue),
                   updateA acc.2 name now)
      | none => acc
  | none => acc

/-- Modelled from the spec: BLOCK_INFO_VALUES is defined in const.py, which is
not under src.  Per spec sections 3 and 4.2 it is the static block-level rule
set mapping info value names to path locators into the poll status, covering
the firmware versions, the two cloud booleans and the device temperature.  The
concrete paths are immaterial to every claim. -/
def BLOCK_INFO_VALUES : List (String × IVCfg) :=
  [(INFO_VALUE_FW_VERSION,
      { path := some [K_UPDATE, K_OLD_VERSION], fmt := some STR_VER }),
   (INFO_VALUE_LATEST_FIRMWARE_VERSION,
      { path := some [K_UPDATE, K_NEW_VERSION], fmt := some STR_VER }),
   (INFO_VALUE_CLOUD_ENABLED, { path := some [K_CLOUD, K_ENABLED] }),
   (INFO_VALUE_CLOUD_CONNECTED, { path := some [K_CLOUD, K_CONNECTED] }),
   (INFO_VALUE_DEVICE_TEMP, { path := some [K_TEMPERATURE] })]

/-- The cloud tri-state written by update_status_information from the two
extracted cloud booleans, block.py lines 147 to 153. -/
def derive_cloud_status (enabled connected : Option Value) : String :=
  if truthyO enabled then
    if truthyO connected then STR_CONNECTED else STR_DISCONNECTED
  else STR_DISABLED

/-- The info value extraction pass of update_status_information: the static
block-level rules skipping excluded names, then the per-model rule set, then
the raw payload stored under its info value name when truthy. -/
def extracted_values (st : BlockState) (status : Json) (now : Int) :
    List (String × Value) × List (String × Int) :=
  let a := BLOCK_INFO_VALUES.foldl
    (fun acc p =>
      if st.exclude_info_values.contains p.1 then acc
      else update_info_value now status p.1 p.2 acc)
    (st.info_values, st.info_values_updated)
  let b := match st.info_value_cfg with
    | none => a
    | some cfgs => cfgs.foldl
        (fun acc p => update_info_value now status p.1 p.2 acc) a
  match st.payload with
  | some pl => if pl.truthy then (updateA b.1 INFO_VALUE_PAYLOAD pl, b.2) else b
  | none => b

/-- Block.update_status_information.  The poll outcome is the success flag and
the decoded structure of the GET status collaborator; now is the current time.
The update cycle stamps the bookkeeping timestamp, aborts on a failed or empty
poll, and otherwise records the poll protocol, stamps last_updated, runs the
extraction pass, derives the cloud status, stores the latest beta firmware
version from the resolver, and notifies the block observers and then each
owned sub-device; the second component counts the raised notifications, one
for the block plus one per sub-device.  The sub-device extraction hooks
mutate only sub-device value sets, which are outside this state. -/
def Block.update_status_information (st : BlockState)
    (fws : List (String × FwCfg)) (success : Bool) (status : Json)
    (now : Int) : BlockState × Nat :=
  let st0 := { st with last_update_status_info := some now }
  if !success || is_empty_obj status then (st0, 0)
  else
    let protos := if st0.protocols.contains STR_POLL then st0.protocols
                  else st0.protocols ++ [STR_POLL]
    let ex := extracted_values st0 status now
    let cloud := derive_cloud_status (lookupA ex.1 INFO_VALUE_CLOUD_ENABLED)
                                     (lookupA ex.1 INFO_VALUE_CLOUD_CONNECTED)
    let ivs4 := updateA ex.1 INFO_VALUE_CLOUD_STATUS (Value.vStr cloud)
    let ivs5 := updateA ivs4 INFO_VALUE_LATEST_BETA_FW_VERSION
      (match FirmwareManager.version fws st0.btype true with
       | some s => Value.vStr s
       | none => Value.vNone)
    ({ st0 with protocols := protos, last_updated := some now,
                info_values := ivs5, info_values_updated := ex.2 },
     1 + st0.devices.length)

/-- Block.loop, the per-cycle auto-set scan: for every configured rule with an
ATTR_AUTO_SET parameter, when the current value differs from the target value
and the value was last updated strictly more than delay seconds ago, the value
is forced to the target and one change notification is raised.  The second
component counts the raised notifications. -/
def Block.loop (st : BlockState) (now : Int) : BlockState × Nat :=
  match st.info_value_cfg with
  | none => (st, 0)
  | some cfgs =>
      cfgs.foldl
        (fun acc p =>
          match p.2.auto_set with
          | none => acc
          | some (new_val, delay) =>
              let value := lookupA acc.1.info_values p.1
              if value ≠ some new_val then
                match lookupA acc.1.info_values_updated p.1 with
                | some time =>
                    if now - time > delay then
                      ({ acc.1 with
                          info_values := updateA acc.1.info_values p.1 new_val },
                       acc.2 + 1)
                    else acc
                | none => acc
              else acc)
        (st, 0)

/-- Block.available: permanently available when no unavailability timeout is
configured, unavailable when never updated, otherwise available exactly when
the elapsed seconds since last_updated do not exceed the timeout. -/
def Block.available (st : BlockState) (now : Int) : Bool :=
  match st.unavailable_after_sec with
  | none => true
  | some timeout =>
      match st.last_updated with
      | none => false
      | some lu => decide (now - lu ≤ timeout)

/-- Block.fw_version: the current firmware version info value. -/
def Block.fw_version (st : BlockState) : Option Value :=
  lookupA st.info_values INFO_VALUE_FW_VERSION

/-- Block.latest_fw_version: for beta the resolver is queried with the model
identifier, otherwise the extracted latest-version info value is read. -/
def Block.latest_fw_version (st : BlockState) (fws : List (String × FwCfg))
    (beta : Bool) : Option Value :=
  if beta then (FirmwareManager.version fws st.btype true).map Value.vStr
  else lookupA st.info_values INFO_VALUE_LATEST_FIRMWARE_VERSION

/-- Block.has_fw_update: the Python expression latest and current and
latest != current, under Python truthiness. -/
def Block.has_fw_update (st : BlockState) (fws : List (String × FwCfg))
    (beta : Bool) : Bool :=
  let latest := Block.latest_fw_version st fws beta
  let current := Block.fw_version st
  truthyO latest && truthyO current && decide (latest ≠ current)

/-- Block.update_firmware: the request path issued to the device.  The URL
lookup runs only for beta, and is invoked with beta hard-coded to False; a
falsy URL falls back to the generic update request. -/
def Block.update_firmware (fws : List (String × FwCfg)) (btype : String)
    (beta : Bool) : String :=
  let url := if beta then FirmwareManager.url fws btype false else none
  match url with
  | some u => if u = "" then OTA_GENERIC else OTA_URL ++ u
  | none => OTA_GENERIC

/- Model identifier constants, the literals of the _setup dispatch chain. -/
def TY_SHBLB1 : String := "SHBLB-1"
def TY_SHCL255 : String := "SHCL-255"
def TY_SHSW1 : String := "SHSW-1"
def TY_SHSK1 : String := "SHSK-1"
def TY_SHSWPM : String := "SHSW-PM"
def TY_SHSW21 : String := "SHSW-21"
def TY_SHSW25 : String := "SHSW-25"
def TY_SHPLG1 : String := "SHPLG-1"
def TY_SHPLG21 : String := "SHPLG2-1"
def TY_SHPLGS : String := "SHPLG-S"
def TY_SHEM3 : String := "SHEM-3"
def TY_SH2LED1 : String := "SH2LED-1"
def TY_SHEM : String := "SHEM"
def TY_SHSW44 : String := "SHSW-44"
def TY_SHRGBWW01 : String := "SHRGBWW-01"
def TY_SHDM1 : String := "SHDM-1"
def TY_SHDM2 : String := "SHDM-2"
def TY_SHHT1 : String := "SHHT-1"
def TY_SHRGBW2 : String := "SHRGBW2"
def TY_SHWT1 : String := "SHWT-1"
def TY_SHDW1 : String := "SHDW-1"
def TY_SHDW2 : String := "SHDW-2"
def TY_SHBDUO1 : String := "SHBDUO-1"
def TY_SHVIN1 : String := "SHVIN-1"
def TY_SHBTN1 : String := "SHBTN-1"
def TY_SHIX31 : String := "SHIX3-1"
def TY_SHGS1 : String := "SHGS-1"
def TY_SHAIR1 : String := "SHAIR-1"

/-- The mode entry of the settings structure, settings.get of the mode key. -/
def settings_mode : Option Json → Option Json
  | some (.jObj fields) => lookupA fields STR_MODE
  | _ => none

/-- Comparison of a raw structure node against a string literal, as Python
equality between a JSON value and a string. -/
def json_is_str (j : Json) (s : String) : Bool :=
  match j with
  | .jStr t => t = s
  | _ => false

/-- The roller-mode test of _setup: settings.get of mode equals roller; a
missing key compares unequal. -/
def mode_is_roller (settings : Option Json) : Bool :=
  match settings_mode settings with
  | some m => json_is_str m STR_ROLLER
  | none => false

/-- The color-mode test of _setup for the RGBW2: settings.get of mode with
default color equals color, so a missing key selects the color branch. -/
def mode_is_color (settings : Option Json) : Bool :=
  match settings_mode settings with
  | some m => json_is_str m STR_COLOR
  | none => true

/-- The sub-device composition of Block._setup, as the ordered list of
_add_device calls per model identifier, conditional branches evaluated
against the given settings under Python truthiness, so both absent settings
and an empty settings mapping take the falsy branch.  Unrecognized models
yield the empty topology. -/
def setup_devices (btype : String) (settings : Option Json) : List SubDev :=
  if btype = TY_SHBLB1 ∨ btype = TY_SHCL255 then
    [⟨.bulb, 0, false⟩]
  else if btype = TY_SHSW1 ∨ btype = TY_SHSK1 then
    [⟨.relay, 0, false⟩, ⟨.switch, 0, false⟩,
     ⟨.extTemp, 0, true⟩, ⟨.extTemp, 1, true⟩, ⟨.extTemp, 2, true⟩,
     ⟨.extHumidity, 0, true⟩]
  else if btype = TY_SHSWPM then
    [⟨.relay, 0, false⟩, ⟨.powerMeter, 0, false⟩, ⟨.switch, 0, false⟩,
     ⟨.extTemp, 0, true⟩, ⟨.extTemp, 1, true⟩, ⟨.extTemp, 2, true⟩,
     ⟨.extHumidity, 0, true⟩]
  else if btype = TY_SHSW21 then
    if truthyJ settings then
      (if mode_is_roller settings then [⟨.roller, 0, false⟩]
       else [⟨.relay, 1, false⟩, ⟨.relay, 2, false⟩]) ++
      [⟨.switch, 1, false⟩, ⟨.switch, 2, false⟩, ⟨.powerMeter, 0, false⟩]
    else []
  else if btype = TY_SHSW25 then
    if truthyJ settings then
      if mode_is_roller settings then
        [⟨.roller, 0, false⟩, ⟨.powerMeter, 1, false⟩]
      else
        [⟨.relay, 1, false⟩, ⟨.relay, 2, false⟩,
         ⟨.powerMeter, 1, false⟩, ⟨.powerMeter, 2, false⟩,
         ⟨.switch, 1, false⟩, ⟨.switch, 2, false⟩]
    else []
  else if btype = TY_SHPLG1 ∨ btype = TY_SHPLG21 ∨ btype = TY_SHPLGS then
    [⟨.relay, 0, false⟩, ⟨.powerMeter, 0, false⟩]
  else if btype = TY_SHEM3 then
    [⟨.relay, 0, false⟩, ⟨.powerMeter, 1, false⟩, ⟨.powerMeter, 2, false⟩,
     ⟨.powerMeter, 3, false⟩]
  else if btype = TY_SH2LED1 then
    [⟨.rgbw2w, 0, false⟩, ⟨.rgbw2w, 1, false⟩]
  else if btype = TY_SHEM then
    [⟨.relay, 0, false⟩, ⟨.powerMeter, 1, false⟩, ⟨.powerMeter, 2, false⟩]
  else if btype = TY_SHSW44 then
    ((List.range 4).map (fun channel =>
      [(⟨.relay, channel + 1, false⟩ : SubDev),
       ⟨.powerMeter, channel + 1, false⟩, ⟨.switch, channel + 1, false⟩])).flatten
  else if btype = TY_SHRGBWW01 then
    [⟨.rgbww, 0, false⟩]
  else if btype = TY_SHDM1 ∨ btype = TY_SHDM2 then
    [⟨.dimmer, 0, false⟩, ⟨.switch, 1, false⟩, ⟨.switch, 2, false⟩,
     ⟨.powerMeter, 0, true⟩]
  else if btype = TY_SHHT1 then
    [⟨.sensorTemperature, 0, false⟩, ⟨.sensorHumidity, 0, false⟩]
  else if btype = TY_SHRGBW2 then
    (if truthyJ settings then
      if mode_is_color settings then
        [⟨.rgbw2c, 0, false⟩, ⟨.powerMeter, 0, false⟩]
      else
        ((List.range 4).map (fun channel =>
          [(⟨.rgbw2w, channel + 1, false⟩ : SubDev),
           ⟨.powerMeter, channel + 1, false⟩])).flatten
     else []) ++ [⟨.switch, 0, false⟩]
  else if btype = TY_SHWT1 then
    [⟨.flood, 0, false⟩, ⟨.sensorTemperature, 0, false⟩]
  else if btype = TY_SHDW1 then
    [⟨.doorWindow, 0, false⟩]
  else if btype = TY_SHDW2 then
    [⟨.doorWindow, 0, false⟩]
  else if btype = TY_SHBDUO1 then
    [⟨.duo, 0, false⟩, ⟨.powerMeter, 0, false⟩]
  else if btype = TY_SHVIN1 then
    [⟨.vintage, 0, false⟩, ⟨.powerMeter, 0, false⟩]
  else if btype = TY_SHBTN1 then
    [⟨.switch, 0, false⟩]
  else if btype = TY_SHIX31 then
    [⟨.switch, 1, false⟩, ⟨.switch, 2, false⟩, ⟨.switch, 3, false⟩]
  else if btype = TY_SHGS1 then
    [⟨.gas, 0, false⟩]
  else if btype = TY_SHAIR1 then
    [⟨.relay, 0, false⟩, ⟨.powerMeter, 0, false⟩, ⟨.switch, 0, false⟩]
  else []

/-- Lifecycle events visible to the external device registry during a
topology reload: a unit removed from the registry, a unit closed, a unit
attached to the registry. -/
inductive REvent where
  | removed : SubDev → REvent
  | closed : SubDev → REvent
  | attached : SubDev → REvent
deriving DecidableEq

def REvent.isAttach : REvent → Bool
  | .attached _ => true
  | _ => false

def removedOf : REvent → Option SubDev
  | .removed d => some d
  | _ => none

def closedOf : REvent → Option SubDev
  | .closed d => some d
  | _ => none

def attachedOf : REvent → Option SubDev
  | .attached d => some d
  | _ => none

/-- The registry-visible state of a reload: the block-owned device list and
the ordered event log of registry operations. -/
structure RegState where
  devices : List SubDev
  events : List REvent

/-- A loop over a device list that appends the given registry events for each
device, the shape of the loops in _reload_devices and update_coap. -/
def log_events (f : SubDev → List REvent) (st : RegState)
    (l : List SubDev) : RegState :=
  l.foldl (fun acc d => { acc with events := acc.events ++ f d }) st

/-- Block._reload_devices: every owned unit is removed from the parent
registry and closed, the device list is cleared, then _setup recomposes the
topology from the model identifier and the freshly fetched settings,
appending the new units to the cleared list. -/
def Block.reload_devices (st : RegState) (btype : String)
    (settings : Option Json) : RegState :=
  let st1 := log_events (fun d => [REvent.removed d, REvent.closed d])
    st st.devices
  let st2 : RegState := { devices := [], events := st1.events }
  { st2 with devices := st2.devices ++ setup_devices btype settings }

/-- The reload branch of Block.update_coap: after _reload_devices every unit
of the rebuilt device list is attached to the parent registry. -/
def Block.update_coap_reload (st : RegState) (btype : String)
    (settings : Option Json) : RegState :=
  let st1 := Block.reload_devices st btype settings
  log_events (fun d => [REvent.attached d]) st1 st1.devices

/-- A registered change observer: its identity and whether its invocation
raises an exception. -/
structure Callback where
  id : Nat
  raises : Bool
deriving DecidableEq

/-- Block.raise_updated: the registered callbacks are invoked in order with
no exception handling, so a raising callback stops the iteration and the
exception propagates.  The result is the list of invoked callback identities
and the identity of the raising callback when one raised. -/
def Block.raise_updated : List Callback → List Nat × Option Nat
  | [] => ([], none)
  | c :: rest =>
      if c.raises then ([c.id], some c.id)
      else
        let r := Block.raise_updated rest
        (c.id :: r.1, r.2)

/-- The availability slice of a block state: the timeout threshold and the
last successful update time, every other attribute at its initial value. -/
def mkAvailState (timeout lu : Option Int) : BlockState :=
  { unavailable_after_sec := timeout, last_updated := lu }

/-- A block state holding exactly one configured info value rule carrying an
auto-set parameter, as the door and window sensor models configure. -/
def autoSetState (iv : String) (target : Value) (delay : Int)
    (ivs : List (String × Value)) (upd : List (String × Int)) : BlockState :=
  { info_values := ivs, info_values_updated := upd,
    info_value_cfg := some [(iv, { auto_set := some (target, delay) })] }

/-- The SHDW-1 vibration rule state: vibration raised to 1 at time 100, with
the auto-set rule targeting 0 after 60 seconds, as _setup configures it. -/
def c1_state : BlockState :=
  { info_values := [(INFO_VALUE_VIBRATION, Value.vInt 1)],
    info_values_updated := [(INFO_VALUE_VIBRATION, 100)],
    info_value_cfg := some [(INFO_VALUE_VIBRATION,
      { pos := some 99, auto_set := some (Value.vInt 0, 60) })] }

/-- A block state that was successfully updated at time 50 and holds one
extracted info value, used to exercise the failed-poll branch. -/
def c5_state : BlockState :=
  { info_values := [(INFO_VALUE_TILT, Value.vInt 5)], last_updated := some 50 }

/-- A poll status carrying the cloud section with enabled true and
connected false. -/
def c2_status : Json :=
  Json.jObj [(K_CLOUD, Json.jObj [(K_ENABLED, Json.jBool true),
                                  (K_CONNECTED, Json.jBool false)])]

def STR_V13 : String := "1.3"

/-- A block state whose extracted current firmware version is the empty
string and whose extracted latest version is 1.3. -/
def c7_state : BlockState :=
  { info_values := [(INFO_VALUE_FW_VERSION, Value.vStr ""),
                    (INFO_VALUE_LATEST_FIRMWARE_VERSION, Value.vStr STR_V13)] }

/-- Two registered observers, the first of which raises. -/
def c8_callbacks : List Callback := [⟨0, true⟩, ⟨1, false⟩]

def STR_V12 : String := "1.2"
def STR_ERR : String := "connection refused"

/-- A block state whose status extraction has already populated the current
firmware version 1.2 and the latest firmware version 1.3, both read from the
poll status and not from the catalog. -/
def c9_state : BlockState :=
  { info_values := [(INFO_VALUE_FW_VERSION, Value.vStr STR_V12),
                    (INFO_VALUE_LATEST_FIRMWARE_VERSION, Value.vStr STR_V13)] }

theorem lookupA_updateA_self {α : Type} (l : List (String × α)) (k : String)
    (v : α) : lookupA (updateA l k v) k = some v := by
  induction l with
  | nil => simp [updateA, lookupA]
  | cons p rest ih =>
      by_cases h : p.1 = k
      · simp [updateA, h, lookupA]
      · simp [updateA, h, lookupA, ih]

theorem lookupA_updateA_ne {α : Type} (l : List (String × α)) (k k2 : String)
    (v : α) (h : k ≠ k2) : lookupA (updateA l k v) k2 = lookupA l k2 := by
  induction l with
  | nil => simp [updateA, lookupA, h]
  | cons p rest ih =>
      by_cases hp : p.1 = k
      · simp [updateA, hp, lookupA, h]
      · simp [updateA, hp, lookupA, ih]

/-- C4: Block.available is true whenever no unavailability timeout is
configured, regardless of last_updated; false when a timeout is configured
and the block was never updated; and otherwise true exactly when the elapsed
seconds do not exceed the timeout, so timeout 600 with last_updated 700
seconds ago gives false and 500 seconds ago gives true. -/
theorem c4_availability : ∀ (timeout lu now : Int),
    Block.available (mkAvailState none (some lu)) now = true ∧
    Block.available (mkAvailState none none) now = true ∧
    Block.available (mkAvailState (some timeout) none) now = false ∧
    Block.available (mkAvailState (some timeout) (some lu)) now =
      decide (now - lu ≤ timeout) ∧
    Block.available (mkAvailState (some 600) (some (now - 700))) now = false ∧
    Block.available (mkAvailState (some 600) (some (now - 500))) now = true := by
  intro timeout lu now
  refine ⟨rfl, rfl, rfl, rfl, ?_, ?_⟩
  · simp [Block.available, mkAvailState]
  · simp [Block.available, mkAvailState]

/-- C10: for every catalog content, model identifier and beta flag,
update_firmware issues the generic update request and never a beta download
URL, because the URL lookup is invoked with beta hard-coded to False and the
resolver url function returns None whenever its beta argument is false. -/
theorem c10_generic_ota : ∀ (fws : List (String × FwCfg)) (btype : String)
    (beta : Bool),
    Block.update_firmware fws btype beta = OTA_GENERIC ∧
    FirmwareManager.url fws btype false = none := by
  intro fws btype beta
  have hurl : FirmwareManager.url fws btype false = none := by
    unfold FirmwareManager.url
    cases lookupA fws btype with
    | none => rfl
    | some cfg => simp
  refine ⟨?_, hurl⟩
  unfold Block.update_firmware
  cases beta <;> simp [hurl]

/-- C9 counterexample: after the one-time catalog fetch fails and the cache
absorbs it into the empty mapping, a subsequent has-update query over that
cache with the beta flag false still returns true when the extracted info
values carry current version 1.2 and latest version 1.3, because the
non-beta latest version is read from the extracted info value and never
consults the catalog; so after the failure, has-update queries do not all
degrade to false. -/
theorem c9_counterexample :
    FirmwareManager.http_get (CatalogFetch.failure STR_ERR) = [] ∧
    Block.has_fw_update c9_state
      (FirmwareManager.http_get (CatalogFetch.failure STR_ERR)) false
      = true := by
  decide

/-- C9 amended: a failed one-time catalog fetch is absorbed into the empty
mapping with no exception reaching the caller, the cache stays empty and
marked downloaded so later accesses return the empty mapping, every version
query and url query over it returns nothing, and every has-update query
whose latest version comes from the resolver, the beta path, degrades to
false; a has-update query with the beta flag false reads the extracted
latest-version info value and is independent of the catalog content, so it
is unaffected by the fetch failure. -/
theorem c9_catalog_failure : ∀ (msg shelly_type : String) (beta : Bool)
    (st : BlockState) (fetch2 : CatalogFetch)
    (fws2 : List (String × FwCfg)),
    FirmwareManager.http_get (CatalogFetch.failure msg) = [] ∧
    (FirmwareManager.list_firmwares {} (CatalogFetch.failure msg)).2 = [] ∧
    (FirmwareManager.list_firmwares {} (CatalogFetch.failure msg)).1.firmwares
      = some [] ∧
    (FirmwareManager.list_firmwares
      (FirmwareManager.list_firmwares {} (CatalogFetch.failure msg)).1
      fetch2).2 = [] ∧
    FirmwareManager.version [] shelly_type beta = none ∧
    FirmwareManager.url [] shelly_type beta = none ∧
    Block.has_fw_update st [] true = false ∧
    Block.has_fw_update st fws2 false = Block.has_fw_update st [] false := by
  intro msg shelly_type beta st fetch2 fws2
  refine ⟨rfl, rfl, rfl, rfl, rfl, rfl, ?_, rfl⟩
  simp [Block.has_fw_update, Block.latest_fw_version, FirmwareManager.version,
        lookupA, truthyO]

/-- C3 counterexample: the RGBW2 model branches its topology on the mode
setting, yet composing it with absent settings yields one sub-device, the
unconditional Switch, not zero. -/
theorem c3_counterexample :
    setup_devices TY_SHRGBW2 none = [⟨DevKind.switch, 0, false⟩] ∧
    setup_devices TY_SHRGBW2 none ≠ [] := by
  refine ⟨rfl, ?_⟩
  decide

/-- C3 amended: with settings absent, and likewise with an empty settings
mapping, the relay-or-roller models SHSW-21 and SHSW-25 compose zero
sub-devices; the color-or-white model SHRGBW2 composes exactly its
unconditional Switch and none of the mode-dependent sub-devices. -/
theorem c3_no_settings :
    setup_devices TY_SHSW21 none = [] ∧
    setup_devices TY_SHSW25 none = [] ∧
    setup_devices TY_SHSW21 (some (Json.jObj [])) = [] ∧
    setup_devices TY_SHSW25 (some (Json.jObj [])) = [] ∧
    setup_devices TY_SHRGBW2 none = [⟨DevKind.switch, 0, false⟩] ∧
    setup_devices TY_SHRGBW2 (some (Json.jObj []))
      = [⟨DevKind.switch, 0, false⟩] := by
  exact ⟨rfl, rfl, rfl, rfl, rfl, rfl⟩

/-- C7 counterexample: with the extracted current version the empty string
and the extracted latest version 1.3, both versions are present and unequal,
yet has_fw_update is false, because Python truthiness treats the empty string
as absent. -/
theorem c7_counterexample :
    Block.fw_version c7_state = some (Value.vStr "") ∧
    Block.latest_fw_version c7_state [] false = some (Value.vStr STR_V13) ∧
    (Block.fw_version c7_state).isSome = true ∧
    (Block.latest_fw_version c7_state [] false).isSome = true ∧
    Block.latest_fw_version c7_state [] false ≠ Block.fw_version c7_state ∧
    Block.has_fw_update c7_state [] false = false := by
  decide

/-- C7 amended: for every block state, catalog content and beta flag,
has_fw_update is true iff the latest version and the current version are both
present and truthy, so in particular non-empty, and unequal; an absent, empty
or equal value yields false. -/
theorem c7_has_fw_update : ∀ (st : BlockState) (fws : List (String × FwCfg))
    (beta : Bool),
    Block.has_fw_update st fws beta = true ↔
      (∃ l, Block.latest_fw_version st fws beta = some l ∧ l.truthy = true) ∧
      (∃ c, Block.fw_version st = some c ∧ c.truthy = true) ∧
      Block.latest_fw_version st fws beta ≠ Block.fw_version st := by
  intro st fws beta
  simp only [Block.has_fw_update, Bool.and_eq_true, decide_eq_true_eq]
  cases hl : Block.latest_fw_version st fws beta with
  | none => simp [truthyO]
  | some l =>
      cases hc : Block.fw_version st with
      | none => simp [truthyO]
      | some c => simp [truthyO, and_assoc]

/-- C8 counterexample: with two registered observers, the first raising, the
second is never invoked and the exception propagates out of raise_updated,
so a raising callback does prevent the remaining callbacks. -/
theorem c8_counterexample :
    (Block.raise_updated c8_callbacks).1 = [0] ∧
    (1 : Nat) ∉ (Block.raise_updated c8_callbacks).1 ∧
    (Block.raise_updated c8_callbacks).2 = some 0 := by
  decide

/-- C8 amended: raise_updated invokes the registered callbacks in order with
no isolation: exactly the callbacks up to and including the first raising one
are invoked, the callbacks after it are not, and the exception propagates to
the caller of raise_updated, aborting the rest of the update cycle. -/
theorem c8_observer_propagation : ∀ (pre post : List Callback) (c : Callback),
    (∀ x ∈ pre, x.raises = false) → c.raises = true →
    Block.raise_updated (pre ++ c :: post) =
      (pre.map Callback.id ++ [c.id], some c.id) := by
  intro pre post c hpre hc
  induction pre with
  | nil => simp [Block.raise_updated, hc]
  | cons a rest ih =>
      have ha : a.raises = false := hpre a (List.mem_cons_self a rest)
      have hr := ih (fun x hx => hpre x (List.mem_cons_of_mem a hx))
      simp [Block.raise_updated, ha, hr]

/-- C8 witness: three observers of which the middle one raises: the first two
are invoked, the third is not, and the raise propagates. -/
theorem c8_observer_propagation_witness :
    Block.raise_updated [⟨5, false⟩, ⟨6, true⟩, ⟨7, false⟩] =
      ([5, 6], some 6) := by
  have h := c8_observer_propagation [⟨5, false⟩] [⟨7, false⟩] ⟨6, true⟩
    (by decide) rfl
  simpa using h

/-- C5: when the status poll fails or returns an empty structure, the update
cycle leaves the block unchanged apart from the bookkeeping timestamp of the
poll attempt: the info values and their update times are untouched, no
extraction runs, last_updated is not stamped, and no notification is
raised. -/
theorem c5_failed_poll : ∀ (st : BlockState) (fws : List (String × FwCfg))
    (success : Bool) (status : Json) (now : Int),
    success = false ∨ is_empty_obj status = true →
    (Block.update_status_information st fws success status now).1 =
      { st with last_update_status_info := some now } ∧
    (Block.update_status_information st fws success status now).1.info_values
      = st.info_values ∧
    (Block.update_status_information st fws success status
      now).1.info_values_updated = st.info_values_updated ∧
    (Block.update_status_information st fws success status now).1.last_updated
      = st.last_updated ∧
    (Block.update_status_information st fws success status now).1.protocols
      = st.protocols ∧
    (Block.update_status_information st fws success status now).2 = 0 := by
  intro st fws success status now h
  have hcond : (!success || is_empty_obj status) = true := by
    cases h with
    | inl h => simp [h]
    | inr h => simp [h]
  have hres : Block.update_status_information st fws success status now =
      ({ st with last_update_status_info := some now }, 0) := by
    unfold Block.update_status_information
    simp [hcond]
  rw [hres]
  exact ⟨rfl, rfl, rfl, rfl, rfl, rfl⟩

/-- C5 witness: a successful transport returning the empty structure at time
99 leaves the previously extracted tilt value, the update-time map and the
last_updated stamp of time 50 untouched and raises no notification. -/
theorem c5_failed_poll_witness :
    (Block.update_status_information c5_state [] true (Json.jObj []) 99).1.info_values
      = [(INFO_VALUE_TILT, Value.vInt 5)] ∧
    (Block.update_status_information c5_state [] true (Json.jObj []) 99).1.last_updated
      = some 50 ∧
    (Block.update_status_information c5_state [] true (Json.jObj []) 99).2 = 0 := by
  have h := c5_failed_poll c5_state [] true (Json.jObj []) 99 (Or.inr rfl)
  exact ⟨h.2.1.trans rfl, h.2.2.2.1.trans rfl, h.2.2.2.2.2⟩

theorem extracted_values_bookkeeping (st : BlockState) (status : Json)
    (now now2 : Int) :
    extracted_values { st with last_update_status_info := some now2 }
      status now = extracted_values st status now := rfl

/-- C2: after a successful status update, the cloud-status info value is the
tri-state derived from the truthiness of the extracted cloud booleans with
the precedence: enabled false gives disabled regardless of connected, else
connected true gives connected, else disconnected. -/
theorem c2_cloud_status : ∀ (st : BlockState) (fws : List (String × FwCfg))
    (status : Json) (now : Int) (e c : Bool),
    is_empty_obj status = false →
    lookupA (extracted_values st status now).1 INFO_VALUE_CLOUD_ENABLED
      = some (Value.vBool e) →
    lookupA (extracted_values st status now).1 INFO_VALUE_CLOUD_CONNECTED
      = some (Value.vBool c) →
    lookupA
      (Block.update_status_information st fws true status now).1.info_values
      INFO_VALUE_CLOUD_STATUS =
      some (Value.vStr
        (if e = false then STR_DISABLED
         else if c then STR_CONNECTED else STR_DISCONNECTED)) := by
  intro st fws status now e c hne he hc
  unfold Block.update_status_information
  simp only [Bool.not_true, Bool.false_or, hne, if_neg, Bool.false_eq_true,
    not_false_iff]
  rw [extracted_values_bookkeeping]
  rw [lookupA_updateA_ne _ _ _ _ (by decide :
    INFO_VALUE_LATEST_BETA_FW_VERSION ≠ INFO_VALUE_CLOUD_STATUS)]
  rw [lookupA_updateA_self]
  rw [he, hc]
  cases e <;> cases c <;> rfl

/-- C2 witness: a fresh block polled successfully at time 5 with cloud
enabled true and connected false ends with the cloud-status info value
disconnected. -/
theorem c2_cloud_status_witness :
    lookupA
      (Block.update_status_information {} [] true c2_status 5).1.info_values
      INFO_VALUE_CLOUD_STATUS = some (Value.vStr STR_DISCONNECTED) := by
  have h := c2_cloud_status {} [] c2_status 5 true false rfl rfl rfl
  simpa using h

theorem loop_autoSetState_step (iv : String) (target v : Value)
    (delay T n : Int) (ivs : List (String × Value))
    (upd : List (String × Int))
    (h1 : lookupA ivs iv = some v) (hv : v ≠ target)
    (h3 : lookupA upd iv = some T) :
    Block.loop (autoSetState iv target delay ivs upd) n =
      (if n - T > delay
       then (autoSetState iv target delay (updateA ivs iv target) upd, 1)
       else (autoSetState iv target delay ivs upd, 0)) := by
  simp only [Block.loop, autoSetState, List.foldl]
  rw [h1, h3]
  rw [if_pos (show some v ≠ some target from by simpa using hv)]

theorem loop_autoSetState_stable (iv : String) (target : Value)
    (delay : Int) (ivs : List (String × Value)) (upd : List (String × Int))
    (now2 : Int) (h : lookupA ivs iv = some target) :
    Block.loop (autoSetState iv target delay ivs upd) now2 =
      (autoSetState iv target delay ivs upd, 0) := by
  simp only [Block.loop, autoSetState, List.foldl]
  rw [h]
  simp

/-- C1 counterexample: the SHDW-1 vibration rule state, vibration set to 1 at
time 100 with reset target 0 and delay 60.  On the tick at time 160, which
satisfies 160 being at least 100 plus 60, the claim forces the value to 0
with a notification, but the loop leaves the state untouched and raises
nothing; and on the tick at 161, which does force the value, the last-updated
timestamp stays 100 rather than being stamped with the current time. -/
theorem c1_counterexample :
    (100 : Int) + 60 ≤ 160 ∧
    (Block.loop c1_state 160).1.info_values = c1_state.info_values ∧
    (Block.loop c1_state 160).2 = 0 ∧
    lookupA (Block.loop c1_state 160).1.info_values INFO_VALUE_VIBRATION
      = some (Value.vInt 1) ∧
    lookupA (Block.loop c1_state 161).1.info_values INFO_VALUE_VIBRATION
      = some (Value.vInt 0) ∧
    lookupA (Block.loop c1_state 161).1.info_values_updated
      INFO_VALUE_VIBRATION = some 100 ∧
    lookupA (Block.loop c1_state 161).1.info_values_updated
      INFO_VALUE_VIBRATION ≠ some 161 := by
  decide

/-- C1 amended: for a value holding a non-target value since time T under an
auto-set rule with the given target and delay, every tick at time at most
T plus delay leaves the state unchanged with no notification; a tick strictly
later than T plus delay forces the value to the target with exactly one
notification, leaving the last-updated timestamp unchanged rather than
stamping it; and afterwards every further tick leaves the state unchanged and
raises no further notification while the value stays at the target. -/
theorem c1_auto_reset : ∀ (iv : String) (target v : Value)
    (delay T now : Int) (ivs : List (String × Value))
    (upd : List (String × Int)),
    lookupA ivs iv = some v → v ≠ target → lookupA upd iv = some T →
    (now - T ≤ delay →
      Block.loop (autoSetState iv target delay ivs upd) now =
        (autoSetState iv target delay ivs upd, 0)) ∧
    (now - T > delay →
      Block.loop (autoSetState iv target delay ivs upd) now =
        (autoSetState iv target delay (updateA ivs iv target) upd, 1)) ∧
    (now - T > delay → ∀ now2 : Int,
      Block.loop (Block.loop (autoSetState iv target delay ivs upd) now).1
        now2 =
        ((Block.loop (autoSetState iv target delay ivs upd) now).1, 0)) := by
  intro iv target v delay T now ivs upd h1 hv h3
  refine ⟨?_, ?_, ?_⟩
  · intro hle
    rw [loop_autoSetState_step iv target v delay T now ivs upd h1 hv h3]
    rw [if_neg (by omega)]
  · intro hgt
    rw [loop_autoSetState_step iv target v delay T now ivs upd h1 hv h3]
    rw [if_pos hgt]
  · intro hgt now2
    rw [loop_autoSetState_step iv target v delay T now ivs upd h1 hv h3]
    rw [if_pos hgt]
    exact loop_autoSetState_stable iv target delay (updateA ivs iv target)
      upd now2 (lookupA_updateA_self ivs iv target)

/-- C1 witness: the vibration value 1 set at time 100, target 0, delay 60:
the tick at 160 changes nothing, the tick at 161 forces the value to 0 with
one notification and the update time still reads 100. -/
theorem c1_auto_reset_witness :
    Block.loop (autoSetState INFO_VALUE_VIBRATION (Value.vInt 0) 60
        [(INFO_VALUE_VIBRATION, Value.vInt 1)]
        [(INFO_VALUE_VIBRATION, 100)]) 160 =
      (autoSetState INFO_VALUE_VIBRATION (Value.vInt 0) 60
        [(INFO_VALUE_VIBRATION, Value.vInt 1)]
        [(INFO_VALUE_VIBRATION, 100)], 0) ∧
    Block.loop (autoSetState INFO_VALUE_VIBRATION (Value.vInt 0) 60
        [(INFO_VALUE_VIBRATION, Value.vInt 1)]
        [(INFO_VALUE_VIBRATION, 100)]) 161 =
      (autoSetState INFO_VALUE_VIBRATION (Value.vInt 0) 60
        [(INFO_VALUE_VIBRATION, Value.vInt 0)]
        [(INFO_VALUE_VIBRATION, 100)], 1) := by
  have h := c1_auto_reset INFO_VALUE_VIBRATION (Value.vInt 0) (Value.vInt 1)
    60 100 160 [(INFO_VALUE_VIBRATION, Value.vInt 1)]
    [(INFO_VALUE_VIBRATION, 100)] rfl (by decide) rfl
  have h2 := c1_auto_reset INFO_VALUE_VIBRATION (Value.vInt 0) (Value.vInt 1)
    60 100 161 [(INFO_VALUE_VIBRATION, Value.vInt 1)]
    [(INFO_VALUE_VIBRATION, 100)] rfl (by decide) rfl
  refine ⟨h.1 (by decide), ?_⟩
  have h3 := h2.2.1 (by decide)
  simpa [updateA] using h3

theorem log_events_spec (f : SubDev → List REvent) (l : List SubDev) :
    ∀ (dv : List SubDev) (ev : List REvent),
    log_events f ⟨dv, ev⟩ l = ⟨dv, ev ++ (l.map f).flatten⟩ := by
  induction l with
  | nil => intro dv ev; simp [log_events]
  | cons d rest ih =>
      intro dv ev
      simp only [log_events, List.foldl] at ih ⊢
      rw [ih dv (ev ++ f d)]
      simp

theorem rmcl_filterMap_closed : ∀ l : List SubDev,
    ((l.map (fun d => [REvent.removed d, REvent.closed d])).flatten).filterMap
      closedOf = l := by
  intro l
  induction l with
  | nil => simp
  | cons d rest ih => simp [closedOf, ih]

theorem rmcl_filterMap_removed : ∀ l : List SubDev,
    ((l.map (fun d => [REvent.removed d, REvent.closed d])).flatten).filterMap
      removedOf = l := by
  intro l
  induction l with
  | nil => simp
  | cons d rest ih => simp [removedOf, ih]

theorem rmcl_filter_not_attach : ∀ l : List SubDev,
    ((l.map (fun d => [REvent.removed d, REvent.closed d])).flatten).filter
      (fun e => !e.isAttach) =
    (l.map (fun d => [REvent.removed d, REvent.closed d])).flatten := by
  intro l
  induction l with
  | nil => simp
  | cons d rest ih =>
      simp only [List.map_cons, List.flatten_cons, List.filter_append]
      rw [ih]
      simp [REvent.isAttach]

theorem rmcl_filter_attach : ∀ l : List SubDev,
    ((l.map (fun d => [REvent.removed d, REvent.closed d])).flatten).filter
      (fun e => e.isAttach) = [] := by
  intro l
  induction l with
  | nil => simp
  | cons d rest ih => simp [REvent.isAttach, ih]

theorem att_flatten : ∀ l : List SubDev,
    ((l.map (fun d => [REvent.attached d])).flatten) = l.map REvent.attached := by
  intro l
  induction l with
  | nil => simp
  | cons d rest ih => simp [ih]

theorem att_filterMap_closed : ∀ l : List SubDev,
    ((l.map REvent.attached).filterMap closedOf) = [] := by
  intro l
  induction l with
  | nil => simp
  | cons d rest ih => simp [closedOf, ih]

theorem att_filterMap_removed : ∀ l : List SubDev,
    ((l.map REvent.attached).filterMap removedOf) = [] := by
  intro l
  induction l with
  | nil => simp
  | cons d rest ih => simp [removedOf, ih]

theorem att_filterMap_attached : ∀ l : List SubDev,
    ((l.map REvent.attached).filterMap attachedOf) = l := by
  intro l
  induction l with
  | nil => simp
  | cons d rest ih => simp [attachedOf, ih]

theorem rmcl_filterMap_attached : ∀ l : List SubDev,
    ((l.map (fun d => [REvent.removed d, REvent.closed d])).flatten).filterMap
      attachedOf = [] := by
  intro l
  induction l with
  | nil => simp
  | cons d rest ih => simp [attachedOf, ih]

theorem att_filter_attach : ∀ l : List SubDev,
    ((l.map REvent.attached).filter (fun e => e.isAttach)) =
      l.map REvent.attached := by
  intro l
  induction l with
  | nil => simp
  | cons d rest ih => simp [REvent.isAttach, ih]

theorem att_filter_not_attach : ∀ l : List SubDev,
    ((l.map REvent.attached).filter (fun e => !e.isAttach)) = [] := by
  intro l
  induction l with
  | nil => simp
  | cons d rest ih => simp [REvent.isAttach, ih]

theorem update_coap_reload_eq : ∀ (old : List SubDev) (btype : String)
    (settings : Option Json),
    Block.update_coap_reload ⟨old, []⟩ btype settings =
      ⟨setup_devices btype settings,
       (old.map (fun d => [REvent.removed d, REvent.closed d])).flatten ++
       (setup_devices btype settings).map REvent.attached⟩ := by
  intro old btype settings
  unfold Block.update_coap_reload Block.reload_devices
  simp only []
  rw [log_events_spec]
  simp only [List.nil_append]
  rw [log_events_spec]
  rw [att_flatten]
  simp

/-- C6: a topology reload removes every previously owned sub-device from the
external registry and closes it exactly once, in order; no attach event
precedes any of these, every close and removal precedes every attach; and
afterwards the block device list equals the composition of the current model
against the freshly fetched settings, whose units are exactly the attached
ones. -/
theorem c6_reload : ∀ (old : List SubDev) (btype : String)
    (settings : Option Json),
    (Block.update_coap_reload ⟨old, []⟩ btype settings).devices =
      setup_devices btype settings ∧
    ((Block.update_coap_reload ⟨old, []⟩ btype settings).events.filterMap
      removedOf) = old ∧
    ((Block.update_coap_reload ⟨old, []⟩ btype settings).events.filterMap
      closedOf) = old ∧
    ((Block.update_coap_reload ⟨old, []⟩ btype settings).events.filterMap
      attachedOf) = setup_devices btype settings ∧
    (Block.update_coap_reload ⟨old, []⟩ btype settings).events =
      ((Block.update_coap_reload ⟨old, []⟩ btype settings).events.filter
        (fun e => !e.isAttach)) ++
      ((Block.update_coap_reload ⟨old, []⟩ btype settings).events.filter
        (fun e => e.isAttach)) := by
  intro old btype settings
  rw [update_coap_reload_eq]
  refine ⟨rfl, ?_, ?_, ?_, ?_⟩
  · simp only [List.filterMap_append]
    rw [rmcl_filterMap_removed, att_filterMap_removed]
    simp
  · simp only [List.filterMap_append]
    rw [rmcl_filterMap_closed, att_filterMap_closed]
    simp
  · simp only [List.filterMap_append]
    rw [rmcl_filterMap_attached, att_filterMap_attached]
    simp
  · simp only [List.filter_append]
    rw [rmcl_filter_not_attach, att_filter_not_attach,
        rmcl_filter_attach, att_filter_attach]
    simp
